import Mathlib

/-!
Verification of the e-commerce order platform: a shallow embedding of the
order orchestrator (saga), the totals calculator, the idempotency store
middleware, and the inventory engine (reserve / release / ship / reaper),
with theorems settling the specified properties.

Numeric convention: the JavaScript sources compute with IEEE doubles; the
embedding uses ℚ.  Every theorem that evaluates the code at a concrete
input only does so at inputs (eighths, halves, small integers) where each
intermediate double operation of the source is exact, so the ℚ shadow and
the double computation agree at every branch decision and result.
-/

namespace ECI

/-- Floor of a rational, computed from its reduced numerator and
denominator with Euclidean integer division (which rounds toward −∞ for
the positive denominator), so ratFloor x = ⌊x⌋. -/
def ratFloor (x : ℚ) : ℤ := x.num / (x.den : ℤ)

/-- Absolute value on ℚ, written out so it evaluates in the kernel. -/
def ratAbs (x : ℚ) : ℚ := if x < 0 then -x else x

/-- JavaScript Math.round: nearest integer, ties toward +∞,
i.e. Math.round x = ⌊x + 1/2⌋. -/
def jsRound (x : ℚ) : ℤ := ratFloor (x + 1/2)

/-- From ss_order_service-master/src/utils/rounding.js, bankersRound(value,
decimals): scale by 10^decimals, take Math.round, and when the scaled value
sits exactly on a .5 tie, keep the rounded value if it is even, otherwise
move it one further away from zero (the source adds sign(num) to an odd
Math.round result).  Direct transcription of the source, including that
tie branch. -/
def bankersRound (value : ℚ) (decimals : ℕ) : ℚ :=
  let factor : ℚ := 10 ^ decimals
  let num := value * factor
  let rounded := jsRound num
  let remainder := ratAbs (num - (rounded : ℚ))
  if remainder = 1/2 then
    (if rounded % 2 = 0 then (rounded : ℚ)
     else (rounded : ℚ) + (if 0 < num then 1 else -1)) / factor
  else (rounded : ℚ) / factor

/-- An item priced by the catalog phase of the saga:
product identifier, quantity, unit price. -/
structure PricedItem where
  product_id : ℕ
  quantity : ℕ
  price : ℚ
deriving DecidableEq, Repr

/-- Totals breakdown returned by calculateOrderTotals. -/
structure Totals where
  subtotal : ℚ
  taxRate : ℚ
  taxAmount : ℚ
  shippingCost : ℚ
  total : ℚ
deriving DecidableEq, Repr

/-- From ss_order_service-master/src/services/totalService.js,
calculateOrderTotals(pricedItems, \x7b taxRate, shippingCost \x7d):
subtotal = Σ price×quantity (a reduce with initial value 0), tax on the
subtotal, total = subtotal + tax + shipping, all four monetary outputs put
through bankersRound(_, 2). -/
def calculateOrderTotals (pricedItems : List PricedItem)
    (taxRate : ℚ) (shippingCost : ℚ) : Totals :=
  let subtotal := pricedItems.foldl (fun s i => s + i.price * (i.quantity : ℚ)) 0
  let taxAmount := subtotal * taxRate
  let total := subtotal + taxAmount + shippingCost
  { subtotal := bankersRound subtotal 2
    taxRate := taxRate
    taxAmount := bankersRound taxAmount 2
    shippingCost := bankersRound shippingCost 2
    total := bankersRound total 2 }

/-- From totalService.js, calculateShippingCost(items):
10.00 base + 2.00 per unit of quantity, banker-rounded. -/
def calculateShippingCost (items : List PricedItem) : ℚ :=
  let totalItems := items.foldl (fun s i => s + (i.quantity : ℚ)) 0
  bankersRound (10 + totalItems * 2) 2

/-- The default tax rate of the saga (5%). -/
def defaultTaxRate : ℚ := 1/20

/-- Specification-side subtotal: Σ price × quantity written as a mapped sum. -/
def specSubtotal (items : List PricedItem) : ℚ :=
  (items.map (fun i => i.price * (i.quantity : ℚ))).sum

/-- Specification-side quantity sum. -/
def specQtySum (items : List PricedItem) : ℚ :=
  (items.map (fun i => (i.quantity : ℚ))).sum

theorem ratFloor_eq (x : ℚ) : ratFloor x = ⌊x⌋ := Rat.floor_def.symm

theorem jsRound_eq (x : ℚ) (n : ℤ) (h1 : (n : ℚ) ≤ x + 1/2) (h2 : x + 1/2 < n + 1) :
    jsRound x = n := by
  rw [jsRound, ratFloor_eq]
  exact Int.floor_eq_iff.mpr ⟨h1, h2⟩

theorem foldl_add_eq_sum (f : PricedItem → ℚ) (l : List PricedItem) (a : ℚ) :
    l.foldl (fun s i => s + f i) a = a + (l.map f).sum := by
  induction l generalizing a with
  | nil => simp
  | cons x xs ih => simp [ih, add_assoc]

/-! ### Inventory Engine: data model

From src/unnamed/part_002 (the inventory service).  The database state is
the triple of the inventory, reservations and inventory_Movements tables,
plus the AUTO_INCREMENT counter that supplies reservation identifiers.
Monetary-free integer columns are modelled as ℤ; SQL GREATEST is written
out so it evaluates in the kernel.  Movement rows are modelled without
their free-text notes column (no claim mentions it). -/

inductive RStatus
  | ACTIVE
  | CONFIRMED
  | RELEASED
  | EXPIRED
deriving DecidableEq, Repr

inductive MovementType
  | RESERVE
  | RELEASE
  | SHIP
deriving DecidableEq, Repr

structure InventoryRow where
  product_id : ℕ
  warehouse : String
  on_hand : ℤ
  reserved : ℤ
deriving DecidableEq, Repr

structure Reservation where
  reservation_id : ℕ
  order_id : ℕ
  product_id : ℕ
  sku : Option String
  warehouse : String
  quantity : ℤ
  idempotency_key : String
  expires_at : ℤ
  status : RStatus
deriving DecidableEq, Repr

structure Movement where
  product_id : ℕ
  sku : Option String
  warehouse : String
  movement_type : MovementType
  quantity : ℤ
  reference_order_id : ℕ
deriving DecidableEq, Repr

structure InvState where
  inventory : List InventoryRow
  reservations : List Reservation
  movements : List Movement
  next_reservation_id : ℕ
deriving DecidableEq, Repr

/-- SQL GREATEST on two integers. -/
def greatest (a b : ℤ) : ℤ := if a < b then b else a

/-- The computed column (on_hand - reserved) used throughout the service. -/
def InventoryRow.available (r : InventoryRow) : ℤ := r.on_hand - r.reserved

/-- RELEASE movement appended for a released or expired reservation
(part_002 lines 664-669 and 783-795). -/
def releaseMovement (r : Reservation) : Movement :=
  { product_id := r.product_id, sku := r.sku, warehouse := r.warehouse,
    movement_type := .RELEASE, quantity := r.quantity,
    reference_order_id := r.order_id }

/-- UPDATE inventory SET reserved = GREATEST(reserved - q, 0)
WHERE product_id = ? AND warehouse = ?  (part_002 lines 659-662). -/
def decReserved (pid : ℕ) (wh : String) (q : ℤ)
    (inv : List InventoryRow) : List InventoryRow :=
  inv.map fun row =>
    if row.product_id = pid ∧ row.warehouse = wh then
      { row with reserved := greatest (row.reserved - q) 0 }
    else row

/-- POST /v1/inventory/release (part_002 lines 631-684), effect on the
database: first UPDATE reservations SET status = RELEASED WHERE
order_id = ? AND status = ACTIVE; then SELECT the reservations WHERE
order_id = ? AND status = RELEASED — note: every RELEASED row for the
order, not only the ones the first update just transitioned — and for
each of them decrement the inventory row and append a RELEASE movement. -/
def releaseOrder (order_id : ℕ) (s : InvState) : InvState :=
  let marked := s.reservations.map fun r =>
    if r.order_id = order_id ∧ r.status = RStatus.ACTIVE then
      { r with status := RStatus.RELEASED }
    else r
  let toRelease := marked.filter fun r =>
    decide (r.order_id = order_id ∧ r.status = RStatus.RELEASED)
  toRelease.foldl
    (fun st r =>
      { st with
        inventory := decReserved r.product_id r.warehouse r.quantity st.inventory
        movements := st.movements ++ [releaseMovement r] })
    { s with reservations := marked }

/-- An item of a ship request: product, quantity and explicit warehouse. -/
structure ShipItem where
  sku : Option String
  product_id : ℕ
  qty : ℤ
  warehouse : String
deriving DecidableEq, Repr

/-- UPDATE inventory SET on_hand = GREATEST(on_hand - q, 0),
reserved = GREATEST(reserved - q, 0) WHERE product_id AND warehouse
(part_002 lines 710-717). -/
def shipUpdate (pid : ℕ) (wh : String) (q : ℤ)
    (inv : List InventoryRow) : List InventoryRow :=
  inv.map fun row =>
    if row.product_id = pid ∧ row.warehouse = wh then
      { row with on_hand := greatest (row.on_hand - q) 0,
                 reserved := greatest (row.reserved - q) 0 }
    else row

def shipMovement (order_id : ℕ) (it : ShipItem) : Movement :=
  { product_id := it.product_id, sku := it.sku, warehouse := it.warehouse,
    movement_type := .SHIP, quantity := it.qty,
    reference_order_id := order_id }

/-- Per-item loop of POST /v1/inventory/ship (part_002 lines 702-728).
The JS guard (!product_id || !qty || !warehouse) rejects falsy values:
product id 0, quantity 0, empty warehouse string. -/
def shipLoop (order_id : ℕ) : List ShipItem → InvState → Except String InvState
  | [], st => .ok st
  | it :: rest, st =>
    if it.product_id = 0 ∨ it.qty = 0 ∨ it.warehouse = "" then
      .error "Invalid item: product_id, qty, and warehouse are required"
    else
      shipLoop order_id rest
        { st with
          inventory := shipUpdate it.product_id it.warehouse it.qty st.inventory
          movements := st.movements ++ [shipMovement order_id it] }

/-- POST /v1/inventory/ship: request validation, then the item loop inside
one transaction; a thrown error rolls the whole transaction back. -/
def shipOrder (order_id : ℕ) (items : List ShipItem) (s : InvState) :
    ℕ × InvState :=
  if items = [] then (400, s)
  else if order_id = 0 then (400, s)
  else
    match shipLoop order_id items s with
    | .ok st => (200, st)
    | .error _ => (400, s)

/-- POST /v1/inventory/reaper/expired (part_002 lines 743-813): select the
ACTIVE reservations with expires_at < NOW(), mark them EXPIRED, and for
each decrement the inventory row (clamped at zero) and append a RELEASE
movement. -/
def reaperOp (now : ℤ) (s : InvState) : InvState :=
  let expired := s.reservations.filter fun r =>
    decide (r.status = RStatus.ACTIVE ∧ r.expires_at < now)
  if expired = [] then s
  else
    let ids := expired.map (·.reservation_id)
    let marked := s.reservations.map fun r =>
      if ids.contains r.reservation_id then { r with status := RStatus.EXPIRED } else r
    expired.foldl
      (fun st r =>
        { st with
          inventory := decReserved r.product_id r.warehouse r.quantity st.inventory
          movements := st.movements ++ [releaseMovement r] })
      { s with reservations := marked }

/-! ### Inventory Engine: reserve operation

From part_002 lines 163-582.  The embedding gives the endpoint sequential
(single-request) semantics: within one transaction the handler sees its
own writes, so the guarded UPDATE never reports zero affected rows and the
unique-key insert never collides with a concurrent transaction; the only
reachable ER_DUP-style situation is the in-loop check for an ACTIVE
reservation with the same (key, order, product), which a request can hit
by listing the same product twice. -/

/-- An item of a reserve request. -/
structure ReserveItem where
  sku : Option String
  product_id : ℕ
  qty : ℤ
deriving DecidableEq, Repr

/-- The reserve endpoint input after header extraction: body order_id and
items, plus the idempotency key (from header or body, none if absent). -/
structure ReserveRequest where
  order_id : ℕ
  items : List ReserveItem
  idempotency_key : Option String
deriving DecidableEq, Repr

/-- One entry of the response items array for a fulfilled item. -/
structure RespItem where
  sku : Option String
  product_id : ℕ
  warehouse : String
  qty_reserved : ℤ
  reservation_id : ℕ
deriving DecidableEq, Repr

/-- One entry of the response items array for an unfulfilled item
(qty_available and the BACKORDER_OR_REDUCE action hint). -/
structure PartialRespItem where
  sku : Option String
  product_id : ℕ
  warehouse : Option String
  qty_requested : ℤ
  qty_available : ℤ
deriving DecidableEq, Repr

inductive RespStatus
  | RESERVED
  | PARTIAL
deriving DecidableEq, Repr

/-- The reserve endpoint response.  The source serialises reserved and
partial entries into one items array when the status is PARTIAL; the
embedding keeps the two shapes in separate fields. -/
structure ReserveResponse where
  code : ℕ
  status : Option RespStatus
  idempotent : Bool
  error : Option String
  allocation_strategy : Option String
  items : List RespItem
  partial_items : List PartialRespItem
deriving DecidableEq, Repr

def errorResponse (code : ℕ) (msg : String) : ReserveResponse :=
  { code := code, status := none, idempotent := false, error := some msg,
    allocation_strategy := none, items := [], partial_items := [] }

/-- Reservation TTL: 15 minutes (part_002 line 97), in seconds here. -/
def reservationTTLseconds : ℤ := 15 * 60

/-- Insertion step of a sort by descending availability (ORDER BY
(on_hand - reserved) DESC). -/
def insertByAvailable (row : InventoryRow) :
    List InventoryRow → List InventoryRow
  | [] => [row]
  | h :: t =>
    if h.available < row.available then row :: h :: t
    else h :: insertByAvailable row t

def sortByAvailableDesc (l : List InventoryRow) : List InventoryRow :=
  l.foldr insertByAvailable []

/-- findAvailableWarehouses (part_002 lines 100-110): the inventory rows of
the product with positive availability, most available first. -/
def findAvailableWarehouses (inv : List InventoryRow) (pid : ℕ) :
    List InventoryRow :=
  sortByAvailableDesc (inv.filter fun r =>
    decide (r.product_id = pid ∧ 0 < r.available))

/-- JS Set insertion order: first occurrences, in order. -/
def dedupFirstNat (l : List ℕ) : List ℕ :=
  l.foldl (fun acc x => if acc.contains x then acc else acc ++ [x]) []

def dedupFirstStr (l : List String) : List String :=
  l.foldl (fun acc x => if acc.contains x then acc else acc ++ [x]) []

/-- The row the warehouseMap of findSingleWarehouseForOrder holds for a
(product, warehouse) pair: it was put there by findAvailableWarehouses,
so it exists only with positive availability. -/
def rowFor (inv : List InventoryRow) (pid : ℕ) (wh : String) :
    Option InventoryRow :=
  inv.find? fun r =>
    decide (r.product_id = pid ∧ r.warehouse = wh ∧ 0 < r.available)

/-- The candidate warehouses of findSingleWarehouseForOrder, in JS Map
insertion order: products in first-occurrence order, each contributing its
warehouses most-available first. -/
def candidateWarehouses (inv : List InventoryRow) (items : List ReserveItem) :
    List String :=
  dedupFirstStr ((dedupFirstNat (items.map (·.product_id))).flatMap
    fun pid => (findAvailableWarehouses inv pid).map (·.warehouse))

/-- canFulfill check of part_002 lines 132-144: every item has a mapped row
in this warehouse with availability at least the requested quantity. -/
def canFulfillAll (inv : List InventoryRow) (items : List ReserveItem)
    (wh : String) : Bool :=
  items.all fun it =>
    match rowFor inv it.product_id wh with
    | some row => decide (it.qty ≤ row.available)
    | none => false

/-- findSingleWarehouseForOrder (part_002 lines 113-147). -/
def findSingleWarehouse (inv : List InventoryRow) (items : List ReserveItem) :
    Option String :=
  (candidateWarehouses inv items).find? (canFulfillAll inv items)

inductive Strategy
  | SINGLE_WAREHOUSE (wh : String)
  | SPLIT
deriving DecidableEq, Repr

def strategyString : Strategy → String
  | .SINGLE_WAREHOUSE _ => "SINGLE_WAREHOUSE"
  | .SPLIT => "SPLIT"

/-- allocateWarehouseStrategy (part_002 lines 150-160). -/
def allocateWarehouseStrategy (inv : List InventoryRow)
    (items : List ReserveItem) : Strategy :=
  match findSingleWarehouse inv items with
  | some wh => .SINGLE_WAREHOUSE wh
  | none => .SPLIT

/-- UPDATE inventory SET reserved = reserved + q WHERE inventory_id = ?
AND (on_hand - reserved) ≥ q (part_002 lines 339-344); the row is keyed
here by its unique (product, warehouse) pair. -/
def reserveUpdate (pid : ℕ) (wh : String) (q : ℤ)
    (inv : List InventoryRow) : List InventoryRow :=
  inv.map fun row =>
    if row.product_id = pid ∧ row.warehouse = wh ∧ q ≤ row.available then
      { row with reserved := row.reserved + q }
    else row

def reserveMovement (order_id : ℕ) (it : ReserveItem) (wh : String) : Movement :=
  { product_id := it.product_id, sku := it.sku, warehouse := wh,
    movement_type := .RESERVE, quantity := it.qty,
    reference_order_id := order_id }

/-- Accumulator of the per-item loop: the evolving transaction state plus
the reservedItems / partialItems / hasPartial response builders. -/
structure ReserveLoopAcc where
  st : InvState
  reservedItems : List RespItem
  partialItems : List PartialRespItem
  hasPartial : Bool
deriving DecidableEq, Repr

/-- Inner warehouse loop (part_002 lines 333-465): take the first candidate
whose availability covers the quantity — increment its reserved counter,
insert an ACTIVE reservation with a fresh identifier and TTL, append a
RESERVE movement — and record a partial entry for every insufficient
candidate scanned on the way.  Sequentially the zero-affected-rows retry
branch is unreachable, and so is a reached candidate failing the guard. -/
def tryWarehouses (key : String) (oid : ℕ) (now : ℤ) (it : ReserveItem) :
    List InventoryRow → ReserveLoopAcc → ReserveLoopAcc
  | [], acc => acc
  | inv :: rest, acc =>
    if it.qty ≤ inv.available then
      let newId := acc.st.next_reservation_id
      let res : Reservation :=
        { reservation_id := newId, order_id := oid,
          product_id := it.product_id, sku := it.sku,
          warehouse := inv.warehouse, quantity := it.qty,
          idempotency_key := key,
          expires_at := now + reservationTTLseconds, status := .ACTIVE }
      { acc with
        st := { acc.st with
          inventory := reserveUpdate it.product_id inv.warehouse it.qty
            acc.st.inventory
          reservations := acc.st.reservations ++ [res]
          movements := acc.st.movements ++ [reserveMovement oid it inv.warehouse]
          next_reservation_id := newId + 1 }
        reservedItems := acc.reservedItems ++
          [{ sku := it.sku, product_id := it.product_id,
             warehouse := inv.warehouse, qty_reserved := it.qty,
             reservation_id := newId }] }
    else
      tryWarehouses key oid now it rest
        { acc with
          partialItems := acc.partialItems ++
            [{ sku := it.sku, product_id := it.product_id,
               warehouse := some inv.warehouse,
               qty_requested := it.qty, qty_available := inv.available }]
          hasPartial := true }

/-- The candidate rows of one item (part_002 lines 267-280): under the
SINGLE_WAREHOUSE strategy, the rows of the target warehouse whose
availability covers the quantity; under SPLIT, findAvailableWarehouses. -/
def warehousesFor (strat : Strategy) (st : InvState) (it : ReserveItem) :
    List InventoryRow :=
  match strat with
  | .SINGLE_WAREHOUSE wh =>
    st.inventory.filter fun r =>
      decide (r.product_id = it.product_id ∧ r.warehouse = wh ∧
        it.qty ≤ r.available)
  | .SPLIT => findAvailableWarehouses st.inventory it.product_id

/-- The in-loop check (part_002 lines 301-304) for an ACTIVE reservation
with the same (idempotency key, order, product). -/
def hasActiveProductReservation (key : String) (oid pid : ℕ)
    (st : InvState) : Bool :=
  decide ((st.reservations.filter fun r =>
    decide (r.idempotency_key = key ∧ r.order_id = oid ∧
      r.product_id = pid ∧ r.status = RStatus.ACTIVE)) ≠ [])

/-- One iteration of the per-item loop (part_002 lines 256-471).  After the
warehouse lookup, the source checks for an ACTIVE reservation with the
same (key, order, product); in that branch it assigns `reserved = true`
(line 328) while the block-scoped declaration `let reserved = false`
only comes later (line 333), so the assignment sits in the temporal dead
zone of that binding and throws a ReferenceError, which the outer catch
turns into a rollback and a 400 response. -/
def reserveStep (key : String) (oid : ℕ) (now : ℤ) (strat : Strategy)
    (acc : ReserveLoopAcc) (it : ReserveItem) : Except String ReserveLoopAcc :=
  if it.qty ≤ 0 then .error "Invalid item: qty must be greater than 0"
  else if it.product_id = 0 then .error "Invalid item: product_id is required"
  else
    match warehousesFor strat acc.st it with
    | [] =>
      .ok { acc with
        partialItems := acc.partialItems ++
          [{ sku := it.sku, product_id := it.product_id, warehouse := none,
             qty_requested := it.qty, qty_available := 0 }]
        hasPartial := true }
    | w :: ws =>
      if hasActiveProductReservation key oid it.product_id acc.st then
        .error "ReferenceError: Cannot access reserved before initialization"
      else
        .ok (tryWarehouses key oid now it (w :: ws) acc)

def reserveLoopAll (key : String) (oid : ℕ) (now : ℤ) (strat : Strategy) :
    List ReserveItem → ReserveLoopAcc → Except String ReserveLoopAcc
  | [], acc => .ok acc
  | it :: rest, acc =>
    match reserveStep key oid now strat acc it with
    | .error e => .error e
    | .ok acc2 => reserveLoopAll key oid now strat rest acc2

/-- The reservations already stored under this (idempotency key, order)
pair (part_002 lines 202-206). -/
def existingFor (key : String) (oid : ℕ) (s : InvState) : List Reservation :=
  s.reservations.filter fun r =>
    decide (r.idempotency_key = key ∧ r.order_id = oid)

def activeOf (l : List Reservation) : List Reservation :=
  l.filter fun r => decide (r.status = RStatus.ACTIVE)

def toRespItem (r : Reservation) : RespItem :=
  { sku := r.sku, product_id := r.product_id, warehouse := r.warehouse,
    qty_reserved := r.quantity, reservation_id := r.reservation_id }

/-- The validated body of the reserve endpoint (part_002 lines 197-502):
the step-1 idempotency lookup, then the allocation strategy and the
per-item loop inside one transaction. -/
def reserveCore (now : ℤ) (key : String) (oid : ℕ)
    (items : List ReserveItem) (s : InvState) : ReserveResponse × InvState :=
  if existingFor key oid s ≠ [] then
    if activeOf (existingFor key oid s) ≠ [] then
      ({ code := 200, status := some .RESERVED, idempotent := true,
         error := none, allocation_strategy := none,
         items := (activeOf (existingFor key oid s)).map toRespItem,
         partial_items := [] }, s)
    else
      (errorResponse 409 "DUPLICATE_IDEMPOTENCY_KEY", s)
  else
    match reserveLoopAll key oid now
        (allocateWarehouseStrategy s.inventory items) items
        { st := s, reservedItems := [], partialItems := [],
          hasPartial := false } with
    | .error msg => (errorResponse 400 msg, s)
    | .ok acc =>
      ({ code := 200,
         status := some (if acc.hasPartial then RespStatus.PARTIAL
           else RespStatus.RESERVED),
         idempotent := false, error := none,
         allocation_strategy :=
           some (strategyString (allocateWarehouseStrategy s.inventory items)),
         items := acc.reservedItems,
         partial_items := if acc.hasPartial ∧ acc.partialItems ≠ []
           then acc.partialItems else [] },
       acc.st)

/-- POST /v1/inventory/reserve (part_002 lines 163-582), sequential
semantics.  Returns the response and the committed state; every error
path rolls the transaction back to the input state. -/
def reserveOp (now : ℤ) (req : ReserveRequest) (s : InvState) :
    ReserveResponse × InvState :=
  if req.items = [] then
    (errorResponse 400 "Invalid request: items array is required", s)
  else if req.order_id = 0 then
    (errorResponse 400 "Invalid request: order_id is required", s)
  else
    match req.idempotency_key with
    | none =>
      (errorResponse 400 "Invalid request: idempotency-key header is required", s)
    | some key => reserveCore now key req.order_id req.items s

/-! ### Order service: persisted order rows and the saga

From src/unnamed/part_008 (src/services/orderService.js) and
ss_order_service-master/src (controller and middleware). -/

inductive OrderStatus
  | PENDING
  | DELIVERED
  | CANCELLED
deriving DecidableEq, Repr

inductive PaymentStatus
  | PENDING
  | SUCCESS
  | FAILED
deriving DecidableEq, Repr

structure OrderItemRec where
  order_item_id : ℕ
  product_id : ℕ
  sku : Option String
  product_name : Option String
  quantity : ℤ
  unit_price : ℚ
  tax_rate : ℚ
deriving DecidableEq, Repr

structure OrderRec where
  order_id : ℕ
  customer_id : ℕ
  order_status : OrderStatus
  payment_status : PaymentStatus
  order_total : ℚ
  totals_signature : Option String
  payment_id : Option String
  items : List OrderItemRec
deriving DecidableEq, Repr

/-- Phase-5 finalize update (part_008 lines 481-493): prisma.Order.update
with data = \x7b payment_status: SUCCESS, payment_id: String(paymentId) \x7d
— those two columns and nothing else. -/
def finalizeOrderUpdate (paymentId : String) (o : OrderRec) : OrderRec :=
  { o with payment_status := .SUCCESS, payment_id := some paymentId }

/-- Compensation step 1 (part_008 lines 552-558): mark the order
CANCELLED; no other order column is touched. -/
def compensateOrder (o : OrderRec) : OrderRec :=
  { o with order_status := .CANCELLED }

/-- An order item as the saga holds it after pricing (product, quantity,
and the sku carried through to the inventory payload). -/
structure SagaItem where
  product_id : ℕ
  quantity : ℤ
  sku : Option String
deriving DecidableEq, Repr

/-- The headers of an outbound saga HTTP call, restricted to the two the
reserve path could involve. -/
structure HttpHeaders where
  content_type : Option String
  idempotency_key : Option String
deriving DecidableEq, Repr

/-- An HTTP request to POST /v1/inventory/reserve as the wire carries it. -/
structure InventoryHttpRequest where
  headers : HttpHeaders
  body_order_id : ℕ
  body_items : List ReserveItem
  body_idempotency_key : Option String
deriving DecidableEq, Repr

/-- The reserve call the saga builds (part_008 lines 319-348): the payload
is \x7b order_id, items: [\x7b product_id, qty, sku? \x7d] \x7d and the only header
set is Content-Type — no Idempotency-Key header and no idempotency_key
body field (unlike the later payment call, lines 397-407, which does set
the header). -/
def sagaReserveHttpRequest (order_id : ℕ) (pricedItems : List SagaItem) :
    InventoryHttpRequest :=
  { headers := { content_type := some "application/json",
                 idempotency_key := none }
    body_order_id := order_id
    body_items := pricedItems.map fun it =>
      { sku := it.sku, product_id := it.product_id, qty := it.quantity }
    body_idempotency_key := none }

/-- Key extraction of the inventory endpoint (part_002 lines 167-170):
the idempotency-key header under any capitalisation, else the
idempotency_key body field. -/
def extractIdempotencyKey (req : InventoryHttpRequest) : Option String :=
  match req.headers.idempotency_key with
  | some k => some k
  | none => req.body_idempotency_key

def toReserveRequest (req : InventoryHttpRequest) : ReserveRequest :=
  { order_id := req.body_order_id, items := req.body_items,
    idempotency_key := extractIdempotencyKey req }

/-- Outcome of the saga's axios call to the reserve endpoint: a response
(axios resolves exactly for 2xx status codes and rejects otherwise) or a
network-level failure with no response. -/
inductive InventoryCallOutcome
  | response (code : ℕ) (body : ReserveResponse)
  | networkFailure
deriving DecidableEq, Repr

/-- Phase-4 handling in the saga (part_008 lines 343-365): a resolved
response — any 2xx, whatever its body says — sets inventoryReserved and
falls through to the payment phase; a rejected call (non-2xx or network
failure) is rethrown into the saga catch, which compensates.  The body is
never inspected. -/
def sagaProceedsToPayment : InventoryCallOutcome → Bool
  | .response code _ => decide (200 ≤ code) && decide (code < 300)
  | .networkFailure => false

/-- The saga after the reserve call: either continue towards payment with
the order untouched, or run compensation (order marked CANCELLED) and
report failure to the caller. -/
def sagaInventoryPhase (out : InventoryCallOutcome) (o : OrderRec) :
    OrderRec × Bool :=
  if sagaProceedsToPayment out then (o, true) else (compensateOrder o, false)

/-! ### Idempotency middleware of POST /v1/orders

From ss_order_service-master/src/middleware/idempotency.js. -/

structure IdemRecord where
  key : String
  resource_path : String
  request_hash : String
  response_code : Option ℤ
  response_body : Option String
deriving DecidableEq, Repr

inductive IdemOutcome
  | missingKey
  | replay (code : ℤ) (body : Option String)
  | conflict
  | proceed
deriving DecidableEq, Repr

/-- checkIdempotency (idempotency.js lines 7-112) as a function of the
extracted key and the record found for it: no key is a 400; with a record,
the JS test response_code >= 200 && response_code < 400 replays the stored
code and body (null coerces to 0, so a pending record falls through), and
everything else is a 409 CONFLICT; with no record a pending row is
inserted and the saga handler runs. -/
def checkIdempotency (key : Option String) (record : Option IdemRecord) :
    IdemOutcome :=
  match key with
  | none => .missingKey
  | some _ =>
    match record with
    | none => .proceed
    | some r =>
      match r.response_code with
      | some c => if 200 ≤ c ∧ c < 400 then .replay c r.response_body
        else .conflict
      | none => .conflict

/-! ## Theorems settling the claims -/

/-- C10: on payment success the finalize step updates only the order's
payment_status (set to SUCCESS) and payment_id (set to the returned
payment reference); order_status — which stays whatever was persisted,
PENDING in the saga, there being no distinct success status — and
order_total, totals_signature, customer_id and all order items are
unchanged from the phase-3 persist. -/
theorem c10_finalize_updates_only_payment_fields (o : OrderRec) (pid : String) :
    (finalizeOrderUpdate pid o).payment_status = PaymentStatus.SUCCESS ∧
    (finalizeOrderUpdate pid o).payment_id = some pid ∧
    (finalizeOrderUpdate pid o).order_id = o.order_id ∧
    (finalizeOrderUpdate pid o).customer_id = o.customer_id ∧
    (finalizeOrderUpdate pid o).order_status = o.order_status ∧
    (finalizeOrderUpdate pid o).order_total = o.order_total ∧
    (finalizeOrderUpdate pid o).totals_signature = o.totals_signature ∧
    (finalizeOrderUpdate pid o).items = o.items :=
  ⟨rfl, rfl, rfl, rfl, rfl, rfl, rfl, rfl⟩

/-- C3: bankersRound is not half-to-even.  At value 0.125 the scaled
number 12.5 is a tie whose Math.round result 13 is odd, and the source
then adds one more (for positive input) instead of stepping back to the
even neighbour: the code returns 0.14 = 7/50, not the claimed 0.12 = 3/25
(the nearest even multiple of 10^-2).  At 0.135 the tie rounds to the
even 14, so that half of the claim does hold.  All operations involved
are exact in IEEE doubles at these inputs. -/
theorem c3_bankersRound_tie_not_half_even :
    bankersRound (1/8) 2 = 7/50 ∧
    bankersRound (27/200) 2 = 7/50 ∧
    (7/50 : ℚ) ≠ 3/25 := by
  refine ⟨?_, ?_, by norm_num⟩
  · have h : jsRound ((1/8 : ℚ) * 10 ^ 2) = 13 :=
      jsRound_eq _ _ (by norm_num) (by norm_num)
    simp only [bankersRound, h]
    norm_num [ratAbs]
  · have h : jsRound ((27/200 : ℚ) * 10 ^ 2) = 14 :=
      jsRound_eq _ _ (by norm_num) (by norm_num)
    simp only [bankersRound, h]
    norm_num [ratAbs]

def c7record302 : IdemRecord :=
  { key := "k7", resource_path := "/v1/orders", request_hash := "h7",
    response_code := some 302, response_body := some "redirect-body" }

/-- C7 counterexample: a record finalized with status 302 — a non-2xx
status — is replayed verbatim by the middleware instead of being rejected
with 409 CONFLICT, because the source replay test is
response_code >= 200 && response_code < 400. -/
theorem c7_3xx_record_replayed_counterexample :
    checkIdempotency (some "k7") (some c7record302) =
      IdemOutcome.replay 302 (some "redirect-body") ∧
    c7record302.response_code = some 302 ∧
    ¬(200 ≤ (302 : ℤ) ∧ (302 : ℤ) < 300) := by
  refine ⟨rfl, rfl, by omega⟩

/-- C7 amended: a record finalized with a status in [200, 400) — 2xx or
3xx — is replayed verbatim (stored status and body) without running the
saga; a pending record (null status) or one finalized with a status
outside [200, 400) is rejected with 409 CONFLICT; with no record the
request proceeds; a missing key is rejected. -/
theorem c7_idempotency_gate (k : String) (r : IdemRecord) :
    (∀ c : ℤ, r.response_code = some c → 200 ≤ c → c < 400 →
      checkIdempotency (some k) (some r) = IdemOutcome.replay c r.response_body) ∧
    (∀ c : ℤ, r.response_code = some c → (c < 200 ∨ 400 ≤ c) →
      checkIdempotency (some k) (some r) = IdemOutcome.conflict) ∧
    (r.response_code = none →
      checkIdempotency (some k) (some r) = IdemOutcome.conflict) ∧
    checkIdempotency (some k) none = IdemOutcome.proceed ∧
    checkIdempotency none (some r) = IdemOutcome.missingKey := by
  refine ⟨?_, ?_, ?_, rfl, rfl⟩
  · intro c hc h1 h2
    simp [checkIdempotency, hc, h1, h2]
  · intro c hc h
    have hn : ¬(200 ≤ c ∧ c < 400) := by omega
    simp [checkIdempotency, hc, hn]
  · intro hc
    simp [checkIdempotency, hc]

/-- C7 witness: a record finalized with status 500 is rejected with
CONFLICT, instantiating the amended gate theorem. -/
theorem c7_idempotency_gate_witness :
    checkIdempotency (some "kw")
      (some { key := "kw", resource_path := "/v1/orders", request_hash := "hw",
              response_code := some 500, response_body := some "failure" }) =
      IdemOutcome.conflict :=
  (c7_idempotency_gate "kw" _).2.1 500 rfl (Or.inr (by omega))

def c2partialBody : ReserveResponse :=
  { code := 200, status := some .PARTIAL, idempotent := false, error := none,
    allocation_strategy := some "SPLIT", items := [],
    partial_items := [{ sku := none, product_id := 1, warehouse := none,
                        qty_requested := 4, qty_available := 0 }] }

def c2order : OrderRec :=
  { order_id := 42, customer_id := 1, order_status := .PENDING,
    payment_status := .PENDING, order_total := 95/2,
    totals_signature := some "sig42", payment_id := none, items := [] }

/-- C2 counterexample: on a 200 response whose body carries status PARTIAL
the saga proceeds to the payment phase with the order untouched — it never
inspects the body — so the claimed compensation (order CANCELLED, failure
returned) does not happen there. -/
theorem c2_partial_response_proceeds_counterexample :
    c2partialBody.status = some RespStatus.PARTIAL ∧
    sagaInventoryPhase (.response 200 c2partialBody) c2order = (c2order, true) ∧
    c2order.order_status = OrderStatus.PENDING :=
  ⟨rfl, rfl, rfl⟩

/-- C2 amended: the orchestrator compensates — order marked CANCELLED,
failure returned to the client — exactly when the reserve call yields a
non-2xx response or fails at the network level; every 2xx response,
including 200 with status PARTIAL, is treated as success and the saga
proceeds to the payment phase. -/
theorem c2_compensation_on_non2xx (o : OrderRec) :
    (∀ (code : ℕ) (body : ReserveResponse), 200 ≤ code → code < 300 →
      sagaInventoryPhase (.response code body) o = (o, true)) ∧
    (∀ (code : ℕ) (body : ReserveResponse), code < 200 ∨ 300 ≤ code →
      sagaInventoryPhase (.response code body) o = (compensateOrder o, false) ∧
      (compensateOrder o).order_status = OrderStatus.CANCELLED) ∧
    sagaInventoryPhase .networkFailure o = (compensateOrder o, false) := by
  refine ⟨?_, ?_, rfl⟩
  · intro code body h1 h2
    simp [sagaInventoryPhase, sagaProceedsToPayment, h1, h2]
  · intro code body h
    have hn : ¬(200 ≤ code) ∨ ¬(code < 300) := by omega
    constructor
    · simp only [sagaInventoryPhase, sagaProceedsToPayment]
      rcases hn with hn | hn <;> simp [hn]
    · rfl

/-- C2 witness: a 409 response from the reserve endpoint compensates,
instantiating the amended theorem. -/
theorem c2_compensation_on_non2xx_witness :
    sagaInventoryPhase (.response 409 (errorResponse 409 "DUPLICATE_IDEMPOTENCY_KEY"))
      c2order = (compensateOrder c2order, false) ∧
    (compensateOrder c2order).order_status = OrderStatus.CANCELLED :=
  (c2_compensation_on_non2xx c2order).2.1 409
    (errorResponse 409 "DUPLICATE_IDEMPOTENCY_KEY") (Or.inr (by omega))

/-- C1: the phase-4 reserve call does NOT carry the client idempotency
key.  The request the saga builds (part_008 lines 319-348) has the order
identifier and the items but only a Content-Type header, no Idempotency-Key
header and no idempotency_key body field; the Inventory Engine therefore
extracts no key and rejects every such call with 400, leaving the store
unchanged — the reserve step of a saga run can never succeed. -/
theorem c1_saga_reserve_lacks_idempotency_key (order_id : ℕ)
    (pricedItems : List SagaItem) (now : ℤ) (s : InvState) :
    extractIdempotencyKey (sagaReserveHttpRequest order_id pricedItems) = none ∧
    (reserveOp now (toReserveRequest (sagaReserveHttpRequest order_id pricedItems)) s).1.code
      = 400 ∧
    (reserveOp now (toReserveRequest (sagaReserveHttpRequest order_id pricedItems)) s).2
      = s := by
  refine ⟨rfl, ?_, ?_⟩ <;>
  · simp only [toReserveRequest, sagaReserveHttpRequest, extractIdempotencyKey,
      reserveOp]
    split_ifs <;> rfl

def c4row : InventoryRow :=
  { product_id := 1, warehouse := "WH1", on_hand := 10, reserved := 5 }

def c4resA : Reservation :=
  { reservation_id := 1, order_id := 1, product_id := 1, sku := none,
    warehouse := "WH1", quantity := 3, idempotency_key := "k1",
    expires_at := 1000, status := .ACTIVE }

def c4resB : Reservation :=
  { reservation_id := 2, order_id := 2, product_id := 1, sku := none,
    warehouse := "WH1", quantity := 2, idempotency_key := "k2",
    expires_at := 1000, status := .ACTIVE }

/-- Store with one row (on_hand 10, reserved 5 = 3 held by order 1 plus 2
held by order 2) and the two ACTIVE reservations backing it. -/
def c4state : InvState :=
  { inventory := [c4row], reservations := [c4resA, c4resB],
    movements := [], next_reservation_id := 3 }

/-- C4: Release is not idempotent.  The second Release(1) finds the
already-RELEASED reservation again (the handler selects every RELEASED
row of the order, not the rows it just transitioned), decrements the
row's reserved counter a second time — from 2 down to 0, consuming the
hold that belongs to order 2 — and appends a second RELEASE movement, so
Release(Release(O)) ≠ Release(O). -/
theorem c4_release_not_idempotent :
    (releaseOrder 1 c4state).inventory.map InventoryRow.reserved = [2] ∧
    (releaseOrder 1 (releaseOrder 1 c4state)).inventory.map InventoryRow.reserved
      = [0] ∧
    (releaseOrder 1 c4state).movements.length = 1 ∧
    (releaseOrder 1 (releaseOrder 1 c4state)).movements.length = 2 ∧
    releaseOrder 1 (releaseOrder 1 c4state) ≠ releaseOrder 1 c4state := by
  decide

/-- Store with ample stock of product 1 and a fresh key; the request lists
product 1 twice. -/
def c9state : InvState :=
  { inventory := [{ product_id := 1, warehouse := "WH1", on_hand := 10,
                    reserved := 0 }],
    reservations := [], movements := [], next_reservation_id := 1 }

def c9req : ReserveRequest :=
  { order_id := 7,
    items := [{ sku := none, product_id := 1, qty := 1 },
              { sku := none, product_id := 1, qty := 1 }],
    idempotency_key := some "k" }

/-- C9: the in-loop collision branch errors instead of reusing the row.
The second item finds the ACTIVE reservation the first item just created
for the same (key, order, product); the source then assigns
`reserved = true` before the block-scoped `let reserved = false` is
reached, a temporal-dead-zone ReferenceError that the outer catch turns
into a rollback and a 400 — the request fails rather than treating the
collision as already-reserved. -/
theorem c9_duplicate_product_item_errors :
    (reserveOp 0 c9req c9state).1.code = 400 ∧
    (reserveOp 0 c9req c9state).1.error =
      some "ReferenceError: Cannot access reserved before initialization" ∧
    (reserveOp 0 c9req c9state).2 = c9state := by
  decide

/-- Rounding a value whose scaled image is already an integer returns the
value unchanged (no tie, zero remainder). -/
theorem bankersRound_exact (value : ℚ) (d : ℕ) (n : ℤ)
    (hv : value * 10 ^ d = (n : ℚ)) : bankersRound value d = value := by
  have hj : jsRound ((n : ℚ)) = n := jsRound_eq _ _ (by norm_num) (by norm_num)
  have hz : ratAbs ((n : ℚ) - (n : ℚ)) = 0 := by simp [ratAbs]
  have hpow : (10 : ℚ) ^ d ≠ 0 := by positivity
  simp only [bankersRound, hv, hj, hz]
  rw [if_neg (by norm_num), div_eq_iff hpow]
  exact hv.symm

/-- The §8 happy-path request: product 1 quantity 2 and product 2
quantity 1, both at unit price 10.00. -/
def happyPathItems : List PricedItem :=
  [{ product_id := 1, quantity := 2, price := 10 },
   { product_id := 2, quantity := 1, price := 10 }]

/-- C6: for every non-empty item list the Totals Calculator returns
subtotal = round(Σ price × qty), tax = round(subtotal_raw × rate),
total = round(subtotal_raw + tax_raw + shipping), each to 2 decimals, and
the saga-computed shipping is round(10.00 + Σ qty × 2.00); on the
happy-path request the shipping is 16.00 and the total is 47.50. -/
theorem c6_totals_formulas :
    (∀ (items : List PricedItem) (taxRate shippingCost : ℚ), items ≠ [] →
      (calculateOrderTotals items taxRate shippingCost).subtotal =
        bankersRound (specSubtotal items) 2 ∧
      (calculateOrderTotals items taxRate shippingCost).taxAmount =
        bankersRound (specSubtotal items * taxRate) 2 ∧
      (calculateOrderTotals items taxRate shippingCost).shippingCost =
        bankersRound shippingCost 2 ∧
      (calculateOrderTotals items taxRate shippingCost).total =
        bankersRound (specSubtotal items + specSubtotal items * taxRate +
          shippingCost) 2 ∧
      calculateShippingCost items =
        bankersRound (10 + specQtySum items * 2) 2) ∧
    calculateShippingCost happyPathItems = 16 ∧
    (calculateOrderTotals happyPathItems defaultTaxRate
        (calculateShippingCost happyPathItems)).total = 95/2 := by
  have hgen : ∀ (items : List PricedItem) (taxRate shippingCost : ℚ),
      (calculateOrderTotals items taxRate shippingCost).subtotal =
        bankersRound (specSubtotal items) 2 ∧
      (calculateOrderTotals items taxRate shippingCost).taxAmount =
        bankersRound (specSubtotal items * taxRate) 2 ∧
      (calculateOrderTotals items taxRate shippingCost).shippingCost =
        bankersRound shippingCost 2 ∧
      (calculateOrderTotals items taxRate shippingCost).total =
        bankersRound (specSubtotal items + specSubtotal items * taxRate +
          shippingCost) 2 ∧
      calculateShippingCost items =
        bankersRound (10 + specQtySum items * 2) 2 := by
    intro items taxRate shippingCost
    have h1 : List.foldl (fun s i => s + i.price * (i.quantity : ℚ)) 0 items =
        specSubtotal items := by
      rw [foldl_add_eq_sum]
      simp [specSubtotal]
    have h2 : List.foldl (fun s i => s + (i.quantity : ℚ)) 0 items =
        specQtySum items := by
      rw [foldl_add_eq_sum]
      simp [specQtySum]
    refine ⟨?_, ?_, ?_, ?_, ?_⟩ <;>
      simp [calculateOrderTotals, calculateShippingCost, h1, h2]
  have hqty3 : specQtySum happyPathItems = 3 := by
    simp [specQtySum, happyPathItems]
    norm_num
  have hsub30 : specSubtotal happyPathItems = 30 := by
    simp [specSubtotal, happyPathItems]
    norm_num
  have hship : calculateShippingCost happyPathItems = 16 := by
    rw [(hgen happyPathItems 0 0).2.2.2.2, hqty3]
    have ha : (10 + (3 : ℚ) * 2) = 16 := by norm_num
    rw [ha, bankersRound_exact 16 2 1600 (by norm_num)]
  have htot : (calculateOrderTotals happyPathItems defaultTaxRate
      (calculateShippingCost happyPathItems)).total = 95/2 := by
    rw [(hgen happyPathItems defaultTaxRate
      (calculateShippingCost happyPathItems)).2.2.2.1, hsub30, hship]
    have ha : (30 + 30 * defaultTaxRate + 16 : ℚ) = 95/2 := by
      rw [defaultTaxRate]
      norm_num
    rw [ha, bankersRound_exact (95/2) 2 4750 (by norm_num)]
  exact ⟨fun items tr sc _ => hgen items tr sc, hship, htot⟩

/-- C6 witness: the general formulas instantiated on the (non-empty)
happy-path request. -/
theorem c6_totals_formulas_witness :
    happyPathItems ≠ [] ∧
    (calculateOrderTotals happyPathItems (1/20) 16).subtotal =
      bankersRound (specSubtotal happyPathItems) 2 :=
  ⟨by simp [happyPathItems],
   (c6_totals_formulas.1 happyPathItems (1/20) 16 (by simp [happyPathItems])).1⟩

/-- C8: a reserve request whose (key, order) pair already has stored
reservations never touches inventory: with at least one ACTIVE among
them the response is 200 RESERVED with idempotent = true listing exactly
the existing ACTIVE reservations, and the state — in particular every
InventoryRow — is returned unchanged; with none ACTIVE the response is
409 DUPLICATE_IDEMPOTENCY_KEY, again with the state unchanged. -/
theorem c8_reserve_idempotent_replay (now : ℤ) (req : ReserveRequest)
    (s : InvState) (key : String)
    (hk : req.idempotency_key = some key)
    (hi : req.items ≠ []) (ho : req.order_id ≠ 0)
    (hex : existingFor key req.order_id s ≠ []) :
    (activeOf (existingFor key req.order_id s) ≠ [] →
      reserveOp now req s =
        ({ code := 200, status := some .RESERVED, idempotent := true,
           error := none, allocation_strategy := none,
           items := (activeOf (existingFor key req.order_id s)).map toRespItem,
           partial_items := [] }, s)) ∧
    (activeOf (existingFor key req.order_id s) = [] →
      reserveOp now req s =
        (errorResponse 409 "DUPLICATE_IDEMPOTENCY_KEY", s)) := by
  constructor <;> intro hact <;>
    simp [reserveOp, reserveCore, hk, hi, ho, hex, hact]

def c8state : InvState :=
  { inventory := [{ product_id := 3, warehouse := "WH2", on_hand := 20,
                    reserved := 4 }],
    reservations := [{ reservation_id := 5, order_id := 9, product_id := 3,
                       sku := some "SKU-3", warehouse := "WH2", quantity := 4,
                       idempotency_key := "key8", expires_at := 123,
                       status := .ACTIVE }],
    movements := [], next_reservation_id := 6 }

def c8req : ReserveRequest :=
  { order_id := 9,
    items := [{ sku := some "SKU-3", product_id := 3, qty := 4 }],
    idempotency_key := some "key8" }

/-- C8 witness: replaying the stored ACTIVE reservation of order 9 under
key8 — the state, inventory row included, comes back unchanged. -/
theorem c8_reserve_idempotent_replay_witness :
    reserveOp 0 c8req c8state =
      ({ code := 200, status := some .RESERVED, idempotent := true,
         error := none, allocation_strategy := none,
         items := (activeOf (existingFor "key8" 9 c8state)).map toRespItem,
         partial_items := [] }, c8state) :=
  (c8_reserve_idempotent_replay 0 c8req c8state "key8" rfl (by decide)
    (by decide) (by decide)).1 (by decide)

/-! ### C5: the InventoryRow invariant on_hand ≥ reserved ≥ 0 -/

/-- §8: for every InventoryRow, on_hand ≥ reserved ≥ 0. -/
def rowsInvariant (inv : List InventoryRow) : Prop :=
  ∀ r ∈ inv, 0 ≤ r.reserved ∧ r.reserved ≤ r.on_hand

/-- §3 data model: reservation quantities are positive; the preservation
argument only needs them nonnegative. -/
def quantitiesNonneg (rs : List Reservation) : Prop :=
  ∀ r ∈ rs, 0 ≤ r.quantity

theorem rowsInvariant_decReserved (pid : ℕ) (wh : String) (q : ℤ)
    (hq : 0 ≤ q) (inv : List InventoryRow) (h : rowsInvariant inv) :
    rowsInvariant (decReserved pid wh q inv) := by
  intro r hr
  rw [decReserved, List.mem_map] at hr
  obtain ⟨row, hrow, rfl⟩ := hr
  obtain ⟨h1, h2⟩ := h row hrow
  split_ifs with hc
  · dsimp [greatest]
    split_ifs <;> constructor <;> omega
  · exact ⟨h1, h2⟩

theorem rowsInvariant_shipUpdate (pid : ℕ) (wh : String) (q : ℤ)
    (inv : List InventoryRow) (h : rowsInvariant inv) :
    rowsInvariant (shipUpdate pid wh q inv) := by
  intro r hr
  rw [shipUpdate, List.mem_map] at hr
  obtain ⟨row, hrow, rfl⟩ := hr
  obtain ⟨h1, h2⟩ := h row hrow
  split_ifs with hc
  · dsimp [greatest]
    split_ifs <;> constructor <;> omega
  · exact ⟨h1, h2⟩

theorem rowsInvariant_reserveUpdate (pid : ℕ) (wh : String) (q : ℤ)
    (hq : 0 ≤ q) (inv : List InventoryRow) (h : rowsInvariant inv) :
    rowsInvariant (reserveUpdate pid wh q inv) := by
  intro r hr
  rw [reserveUpdate, List.mem_map] at hr
  obtain ⟨row, hrow, rfl⟩ := hr
  obtain ⟨h1, h2⟩ := h row hrow
  split_ifs with hc
  · obtain ⟨-, -, havail⟩ := hc
    dsimp [InventoryRow.available] at havail
    dsimp only
    constructor <;> omega
  · exact ⟨h1, h2⟩

/-- The shared per-reservation release loop of the release handler and the
reaper: clamped decrements preserve the row invariant when the released
quantities are nonnegative. -/
theorem rowsInvariant_releaseFold : ∀ (l : List Reservation) (st : InvState),
    (∀ r ∈ l, 0 ≤ r.quantity) → rowsInvariant st.inventory →
    rowsInvariant ((l.foldl (fun st r =>
      { st with
        inventory := decReserved r.product_id r.warehouse r.quantity st.inventory
        movements := st.movements ++ [releaseMovement r] }) st).inventory)
  | [], _, _, h => h
  | x :: xs, st, hq, h => by
    rw [List.foldl_cons]
    exact rowsInvariant_releaseFold xs _
      (fun r hr => hq r (List.mem_cons_of_mem _ hr))
      (rowsInvariant_decReserved _ _ _ (hq x (List.mem_cons_self _ _)) _ h)

theorem rowsInvariant_releaseOrder (oid : ℕ) (s : InvState)
    (h : rowsInvariant s.inventory) (hq : quantitiesNonneg s.reservations) :
    rowsInvariant ((releaseOrder oid s).inventory) := by
  simp only [releaseOrder]
  refine rowsInvariant_releaseFold _ _ ?_ h
  intro r hr
  have hr2 := List.mem_of_mem_filter hr
  rw [List.mem_map] at hr2
  obtain ⟨r0, hr0, rfl⟩ := hr2
  have h0 := hq r0 hr0
  split_ifs <;> exact h0

theorem rowsInvariant_reaperOp (now : ℤ) (s : InvState)
    (h : rowsInvariant s.inventory) (hq : quantitiesNonneg s.reservations) :
    rowsInvariant ((reaperOp now s).inventory) := by
  simp only [reaperOp]
  split_ifs with hc
  · exact h
  · refine rowsInvariant_releaseFold _ _ ?_ h
    intro r hr
    exact hq r (List.mem_of_mem_filter hr)

theorem rowsInvariant_shipLoop : ∀ (oid : ℕ) (items : List ShipItem)
    (st st2 : InvState), rowsInvariant st.inventory →
    shipLoop oid items st = .ok st2 → rowsInvariant st2.inventory
  | _, [], st, st2, h, he => by
    cases he
    exact h
  | oid, it :: rest, st, st2, h, he => by
    by_cases hc : it.product_id = 0 ∨ it.qty = 0 ∨ it.warehouse = ""
    · rw [shipLoop, if_pos hc] at he
      simp at he
    · rw [shipLoop, if_neg hc] at he
      exact rowsInvariant_shipLoop oid rest _ st2
        (rowsInvariant_shipUpdate _ _ _ _ h) he

theorem rowsInvariant_shipOrder (oid : ℕ) (items : List ShipItem)
    (s : InvState) (h : rowsInvariant s.inventory) :
    rowsInvariant ((shipOrder oid items s).2.inventory) := by
  rw [shipOrder]
  split_ifs with h1 h2
  · exact h
  · exact h
  · cases hss : shipLoop oid items s with
    | error e => exact h
    | ok st2 => exact rowsInvariant_shipLoop oid items s st2 h hss

theorem rowsInvariant_tryWarehouses (key : String) (oid : ℕ) (now : ℤ)
    (it : ReserveItem) (hq : 0 ≤ it.qty) :
    ∀ (ws : List InventoryRow) (acc : ReserveLoopAcc),
      rowsInvariant acc.st.inventory →
      rowsInvariant ((tryWarehouses key oid now it ws acc).st.inventory)
  | [], _, h => h
  | w :: rest, acc, h => by
    rw [tryWarehouses]
    split_ifs with hc
    · exact rowsInvariant_reserveUpdate _ _ _ hq _ h
    · exact rowsInvariant_tryWarehouses key oid now it hq rest _ h

theorem rowsInvariant_reserveStep (key : String) (oid : ℕ) (now : ℤ)
    (strat : Strategy) (acc acc2 : ReserveLoopAcc) (it : ReserveItem)
    (h : rowsInvariant acc.st.inventory)
    (he : reserveStep key oid now strat acc it = .ok acc2) :
    rowsInvariant acc2.st.inventory := by
  unfold reserveStep at he
  by_cases h1 : it.qty ≤ 0
  · rw [if_pos h1] at he
    exact absurd he (by simp)
  rw [if_neg h1] at he
  by_cases h2 : it.product_id = 0
  · rw [if_pos h2] at he
    exact absurd he (by simp)
  rw [if_neg h2] at he
  cases hw : warehousesFor strat acc.st it with
  | nil =>
    rw [hw] at he
    cases he
    exact h
  | cons w ws =>
    rw [hw] at he
    dsimp only at he
    by_cases h3 : hasActiveProductReservation key oid it.product_id acc.st = true
    · rw [if_pos h3] at he
      exact absurd he (by simp)
    · rw [if_neg h3] at he
      cases he
      exact rowsInvariant_tryWarehouses key oid now it (by omega) _ _ h

theorem rowsInvariant_reserveLoopAll (key : String) (oid : ℕ) (now : ℤ)
    (strat : Strategy) :
    ∀ (items : List ReserveItem) (acc acc2 : ReserveLoopAcc),
      rowsInvariant acc.st.inventory →
      reserveLoopAll key oid now strat items acc = .ok acc2 →
      rowsInvariant acc2.st.inventory
  | [], _, _, h, he => by
    cases he
    exact h
  | it :: rest, acc, acc2, h, he => by
    rw [reserveLoopAll] at he
    cases hstep : reserveStep key oid now strat acc it with
    | error e =>
      rw [hstep] at he
      simp at he
    | ok acc1 =>
      rw [hstep] at he
      exact rowsInvariant_reserveLoopAll key oid now strat rest acc1 acc2
        (rowsInvariant_reserveStep key oid now strat acc acc1 it h hstep) he

theorem rowsInvariant_reserveCore (now : ℤ) (key : String) (oid : ℕ)
    (items : List ReserveItem) (s : InvState) (h : rowsInvariant s.inventory) :
    rowsInvariant ((reserveCore now key oid items s).2.inventory) := by
  unfold reserveCore
  split_ifs with he ha
  · exact h
  · exact h
  · cases hloop : reserveLoopAll key oid now
        (allocateWarehouseStrategy s.inventory items) items
        { st := s, reservedItems := [], partialItems := [],
          hasPartial := false } with
    | error e => exact h
    | ok acc =>
      exact rowsInvariant_reserveLoopAll key oid now
        (allocateWarehouseStrategy s.inventory items) items _ acc h hloop

/-- C5: assuming on_hand ≥ reserved ≥ 0 on every row and nonnegative
stored reservation quantities, the invariant still holds on every row
after each committed Inventory Engine operation: reserve (which only
increments reserved under the guard on_hand − reserved ≥ q), release,
ship, and the reaper (whose decrements clamp at zero). -/
theorem c5_inventory_invariant_preserved (now : ℤ) (req : ReserveRequest)
    (oid oid2 : ℕ) (shipItems : List ShipItem) (s : InvState)
    (h : rowsInvariant s.inventory) (hq : quantitiesNonneg s.reservations) :
    rowsInvariant ((reserveOp now req s).2.inventory) ∧
    rowsInvariant ((releaseOrder oid s).inventory) ∧
    rowsInvariant ((shipOrder oid2 shipItems s).2.inventory) ∧
    rowsInvariant ((reaperOp now s).inventory) := by
  refine ⟨?_, rowsInvariant_releaseOrder oid s h hq,
    rowsInvariant_shipOrder oid2 shipItems s h,
    rowsInvariant_reaperOp now s h hq⟩
  rw [reserveOp.eq_def]
  split_ifs with h1 h2
  · exact h
  · exact h
  · cases hk : req.idempotency_key with
    | none => exact h
    | some key => exact rowsInvariant_reserveCore now key req.order_id req.items s h

def c5shipItem : ShipItem :=
  { sku := none, product_id := 1, qty := 3, warehouse := "WH1" }

/-- C5 witness: the invariant checked after each operation on the concrete
two-reservation store. -/
theorem c5_inventory_invariant_preserved_witness :
    rowsInvariant ((reserveOp 0 c8req c4state).2.inventory) ∧
    rowsInvariant ((releaseOrder 1 c4state).inventory) ∧
    rowsInvariant ((shipOrder 1 [c5shipItem] c4state).2.inventory) ∧
    rowsInvariant ((reaperOp 0 c4state).inventory) :=
  c5_inventory_invariant_preserved 0 c8req 1 1 [c5shipItem] c4state
    (by unfold rowsInvariant; decide) (by unfold quantitiesNonneg; decide)

end ECI
